import Mathlib

/-!
Verification of the FraudShield decision-orchestration engine.

Shallow embedding of the Python sources:
  * `fraudshield/config/rewards.py`   — cost matrix, risk classification, flag policy
  * `fraudshield/tools/fraud_tools.py`— anomaly detection, pattern matching, scoring
  * `fraudshield/agents/transaction_analyst.py`
  * `fraudshield/agents/document_analyst.py` (with its constant-stub document tools)
  * `fraudshield/agents/orchestrator.py` — workflows, decide phase, findings

Python floats are modelled as exact rationals (`ℚ`); Python exceptions as
`Except PyErr`.  Wall-clock fields (timestamps, elapsed_ms) and free-text
fields that no logic reads are elided; numeric message interpolation inside
human-readable description strings is elided, but the division the
interpolation performs (which can raise `ZeroDivisionError`) is modelled
explicitly with `pyDivQ`.
-/

namespace FraudShield

/-- Python exceptions that the modelled code can raise, together with the two
error names postulated by the specification taxonomy (`InsufficientDataError`,
`InvalidInputError`).  The latter two appear nowhere in the source; they are
included so that theorems can state that the code never raises them. -/
inductive PyErr where
  | attributeError (attr : String)
  | zeroDivisionError
  | insufficientDataError
  | invalidInputError
  deriving DecidableEq, Repr

/-- Division as Python performs it: `a / b` raises `ZeroDivisionError` when
`b == 0`. -/
def pyDivQ (a b : ℚ) : Except PyErr ℚ :=
  if b = 0 then .error .zeroDivisionError else .ok (a / b)

/-! ## config/rewards.py -/

/-- Models `RewardConfig` dataclass (rewards.py lines 28–53).  These five fields are
the only data attributes the dataclass defines. -/
structure RewardConfig where
  true_positive_reward : ℚ := 10
  true_negative_reward : ℚ := 1
  false_positive_penalty : ℚ := -5
  false_negative_penalty : ℚ := -50
  discount_factor : ℚ := 99/100
  deriving DecidableEq, Repr

/-- Models `REWARD_MATRIX = RewardConfig()`; `REWARD_CONFIG` is an alias of it. -/
def REWARD_CONFIG : RewardConfig := {}

/-- Python attribute lookup of a float-valued attribute on a `RewardConfig`
instance: the dataclass defines exactly the five fields of the structure
above, so any other name raises `AttributeError`. -/
def RewardConfig.attrFloat (c : RewardConfig) (name : String) : Except PyErr ℚ :=
  if name = "true_positive_reward" then .ok c.true_positive_reward
  else if name = "true_negative_reward" then .ok c.true_negative_reward
  else if name = "false_positive_penalty" then .ok c.false_positive_penalty
  else if name = "false_negative_penalty" then .ok c.false_negative_penalty
  else if name = "discount_factor" then .ok c.discount_factor
  else .error (.attributeError name)

/-- Models `RiskLevel` enum (rewards.py lines 107–112). -/
inductive RiskLevel where
  | low
  | medium
  | high
  | critical
  deriving DecidableEq, Repr

/-- String value of a `RiskLevel`, as in the Python enum. -/
def RiskLevel.value : RiskLevel → String
  | .low => "low"
  | .medium => "medium"
  | .high => "high"
  | .critical => "critical"

/-- Models `classify_risk` (rewards.py lines 115–134). -/
def classify_risk (score : ℚ) : RiskLevel :=
  if score ≥ 7/10 then .critical
  else if score ≥ 4/10 then .high
  else if score ≥ 2/10 then .medium
  else .low

/-- Models `should_flag` (rewards.py lines 137–151), threshold passed explicitly. -/
def should_flag (score threshold : ℚ) : Bool :=
  score ≥ threshold

/-- Models `should_flag` with its Python default threshold `0.3`. -/
def should_flagD (score : ℚ) : Bool :=
  should_flag score (3/10)

/-! ## tools/fraud_tools.py — data model -/

/-- A transaction, as the dictionary the tools read it: each field carries the
`transaction.get(key, default)` default from `fraud_tools.py`. -/
structure Transaction where
  transaction_id : String := ""
  txType : String := "REMBOURSEMENT"
  amount : ℚ := 0
  beneficiary_id : String := ""
  beneficiary_name : String := "N/A"
  provider_id : String := "N/A"
  provider_name : String := "N/A"
  provider_risk_score : ℚ := 0
  description : String := ""
  documents_count : ℤ := 0
  tenure_months : ℚ := 0
  claims_30d : ℚ := 0
  total_30d : ℚ := 0
  days_since_last : ℚ := 0
  deriving DecidableEq, Repr

/-- One anomaly entry produced by `detect_anomalies`. -/
structure Anomaly where
  anomalyType : String
  severity : String
  description : String
  deriving DecidableEq, Repr

/-- The `historical_stats` dictionary built by the transaction analyst. -/
structure HistStats where
  avg_amount : ℚ
  total_30d : ℚ
  claim_count : ℚ
  deriving DecidableEq, Repr

/-- Result of `detect_anomalies`. -/
structure AnomalyResult where
  anomaly_count : ℕ
  anomalies : List Anomaly
  risk_factors : List String
  overall_anomaly_score : ℚ
  deriving DecidableEq, Repr

/-- The anomaly list of `detect_anomalies` (fraud_tools.py lines 137–181),
given the already-resolved average amount and whether the amount-spike branch
fired.  The numeric interpolation inside the French description strings is
elided (no logic reads the descriptions). -/
def anomalyEntries (tx : Transaction) (spike : Bool) : List Anomaly :=
  (if spike then
    [⟨"amount_spike", "high", "Montant superieur a la moyenne"⟩] else []) ++
  (if tx.claims_30d > 10 then
    [⟨"high_frequency", "medium", "Demandes en 30 jours"⟩] else []) ++
  (if tx.provider_risk_score > 1/2 then
    [⟨"risky_provider", "high", "Score de risque prestataire eleve"⟩] else []) ++
  (if tx.tenure_months < 3 ∧ tx.amount > 500 then
    [⟨"new_beneficiary_high_amount", "medium", "Beneficiaire recent"⟩] else [])

/-- The matching risk-factor tags. -/
def riskFactorEntries (tx : Transaction) (spike : Bool) : List String :=
  (if spike then ["amount_anomaly"] else []) ++
  (if tx.claims_30d > 10 then ["frequency_anomaly"] else []) ++
  (if tx.provider_risk_score > 1/2 then ["provider_risk"] else []) ++
  (if tx.tenure_months < 3 ∧ tx.amount > 500 then ["new_beneficiary"] else [])

/-- The record `detect_anomalies` returns when it does not raise. -/
def anomalyPayload (tx : Transaction) (spike : Bool) : AnomalyResult :=
  let anomalies := anomalyEntries tx spike
  { anomaly_count := anomalies.length
    anomalies := anomalies
    risk_factors := riskFactorEntries tx spike
    overall_anomaly_score := min ((anomalies.length : ℚ) * (2/10)) 1 }

/-- Models `detect_anomalies` (fraud_tools.py lines 121–188).  When the amount-spike
branch fires, the description f-string computes `amount / avg_amount`, which
raises `ZeroDivisionError` when `avg_amount == 0`. -/
def detect_anomalies (tx : Transaction) (stats : Option HistStats) :
    Except PyErr AnomalyResult :=
  let avg_amount : ℚ := match stats with
    | some s => s.avg_amount
    | none => 100
  if tx.amount > avg_amount * 5 then
    match pyDivQ tx.amount avg_amount with
    | .error e => .error e
    | .ok _ratio => .ok (anomalyPayload tx true)
  else
    .ok (anomalyPayload tx false)

/-! ## tools/fraud_tools.py — pattern matching -/

/-- An entry of the `FRAUD_PATTERNS` library (config/models.py lines 155–191). -/
structure FraudPattern where
  patId : String
  patName : String
  patDescription : String
  indicators : List String
  risk_weight : ℚ
  deriving DecidableEq, Repr

/-- Models `FRAUD_PATTERNS` from config/models.py. -/
def FRAUD_PATTERNS : List FraudPattern :=
  [ ⟨"PATTERN_001", "Cascade de remboursements",
      "Multiples demandes de petits montants sur une courte periode",
      ["claim_frequency_30d > 10", "avg_claim_amount < 100"], 7/10⟩,
    ⟨"PATTERN_002", "Nouveau prestataire a risque",
      "Demande importante vers un nouveau prestataire non verifie",
      ["provider_tenure < 30", "amount > 1000", "provider_risk_score > 0.5"], 8/10⟩,
    ⟨"PATTERN_003", "Pic inhabituel de depenses",
      "Montant significativement superieur a l historique",
      ["amount > avg_claim_amount * 5"], 6/10⟩,
    ⟨"PATTERN_004", "Reseau suspect",
      "Beneficiaire lie a d autres cas de fraude confirmes",
      ["community_risk_score > 0.7", "shared_providers_count > 3"], 9/10⟩,
    ⟨"PATTERN_005", "Documents suspects",
      "Anomalies detectees dans les documents soumis",
      ["document_authenticity_score < 0.7", "metadata_anomaly_score > 0.5"], 85/100⟩ ]

/-- Does `needle` occur at the head of `hay`? -/
def charsStart (hay needle : List Char) : Bool :=
  match hay, needle with
  | _, [] => true
  | [], _ :: _ => false
  | a :: s, b :: t => a == b && charsStart s t

/-- Does `needle` occur anywhere inside `hay`? -/
def charsContain (hay needle : List Char) : Bool :=
  match hay with
  | [] => needle.isEmpty
  | c :: t => charsStart (c :: t) needle || charsContain t needle

/-- Python substring test: needle inside hay. -/
def strContain (hay needle : String) : Bool :=
  charsContain hay.toList needle.toList

/-- One round of the indicator `if`/`elif` chain in `match_fraud_patterns`
(fraud_tools.py lines 239–246). -/
def indicatorMatched (tx : Transaction) (ind : String) : Bool :=
  if strContain ind "claim_frequency_30d" && decide (tx.claims_30d > 10) then true
  else if strContain ind "amount" && decide (tx.amount > 1000) then true
  else if strContain ind "provider_risk_score" && decide (tx.provider_risk_score > 1/2) then true
  else false

/-- One matched-pattern entry. -/
structure MatchedPattern where
  pattern_id : String
  pattern_name : String
  description : String
  match_strength : ℚ
  risk_weight : ℚ
  deriving DecidableEq, Repr

/-- Result of `match_fraud_patterns`. -/
structure PatternMatchResult where
  patterns_checked : ℕ
  matched_patterns : List MatchedPattern
  combined_pattern_score : ℚ
  deriving DecidableEq, Repr

/-- Loop body of `match_fraud_patterns`: accumulates matched patterns and
their total weight.  Every pattern in `FRAUD_PATTERNS` has a non-empty
indicator list, so the Python division `indicators_matched / total_indicators`
(matching ℚ division here) never divides by zero when `m > 0`. -/
def patternStep (tx : Transaction) (acc : List MatchedPattern × ℚ)
    (p : FraudPattern) : List MatchedPattern × ℚ :=
  let m := (p.indicators.filter (indicatorMatched tx)).length
  if m > 0 then
    let strength : ℚ := (m : ℚ) / (p.indicators.length : ℚ)
    if strength ≥ 1/2 then
      (acc.1 ++ [⟨p.patId, p.patName, p.patDescription, strength, p.risk_weight⟩],
        acc.2 + p.risk_weight * strength)
    else acc
  else acc

/-- Models `match_fraud_patterns` (fraud_tools.py lines 219–266). -/
def match_fraud_patterns (tx : Transaction) : PatternMatchResult :=
  let res := FRAUD_PATTERNS.foldl (patternStep tx) ([], 0)
  { patterns_checked := FRAUD_PATTERNS.length
    matched_patterns := res.1
    combined_pattern_score := min res.2 1 }

/-! ## Python `round(x, 4)` -/

/-- Python semantics of rounding to 4 digits: round to the nearest multiple of `1/10000`,
ties to even. -/
def round4 (q : ℚ) : ℚ :=
  let x := q * 10000
  let n := ⌊x⌋
  let r : ℤ :=
    if x - n < 1/2 then n
    else if x - n > 1/2 then n + 1
    else if n % 2 = 0 then n else n + 1
  (r : ℚ) / 10000

/-! ## tools/fraud_tools.py — history, serialization, embedding, scoring -/

/-- The stub `get_transaction_history` (fraud_tools.py lines 191–216): every
count and amount is zero. -/
structure TransactionHistory where
  beneficiary_id : String
  period_days : ℤ
  transaction_count : ℚ := 0
  total_amount : ℚ := 0
  avg_amount : ℚ := 0
  fraud_flags : ℚ := 0
  deriving DecidableEq, Repr

/-- Models `get_transaction_history` stub. -/
def get_transaction_history (bid : String) (days : ℤ) : TransactionHistory :=
  { beneficiary_id := bid, period_days := days }

/-- Models `serialize_transaction` (fraud_tools.py lines 42–90): renders the
transaction template.  Exact number formatting is immaterial: the text feeds
only the constant embedding stub. -/
def serialize_transaction (tx : Transaction) : String :=
  "Demande de " ++ tx.txType ++
  " Beneficiaire: " ++ tx.beneficiary_name ++ " ID: " ++ tx.beneficiary_id ++
  " inscrit depuis " ++ toString tx.tenure_months ++ " mois." ++
  " Montant demande: " ++ toString tx.amount ++ "EUR" ++
  " Prestataire: " ++ tx.provider_name ++ " ID: " ++ tx.provider_id ++
  " Score de risque prestataire: " ++ toString tx.provider_risk_score ++
  " Description: " ++ tx.description ++
  " Nombre de documents joints: " ++ toString tx.documents_count ++
  " Historique 30 jours: " ++ toString tx.claims_30d ++
  " demandes pour un total de " ++ toString tx.total_30d ++ "EUR" ++
  " Derniere demande il y a " ++ toString tx.days_since_last ++ " jours"

/-- Models `compute_embedding` stub (fraud_tools.py lines 93–118): a constant
768-dimensional zero vector. -/
def compute_embedding (text : String) : List ℚ × ℕ :=
  (List.replicate 768 0, text.length)

/-- The per-component breakdown inside a score result. -/
structure ScoreComponents where
  anomaly_score : ℚ
  pattern_score : ℚ
  amount_factor : ℚ
  provider_risk : ℚ
  deriving DecidableEq, Repr

/-- Result of `score_transaction`. -/
structure ScoreResult where
  transaction_id : String
  fraud_probability : ℚ
  risk_level : RiskLevel
  recommended_action : String
  confidence : ℚ
  components : ScoreComponents
  anomalies : List Anomaly
  matched_patterns : List MatchedPattern
  deriving DecidableEq, Repr

/-- The record `score_transaction` builds once its anomaly call returned
(fraud_tools.py lines 299–350). -/
def scorePayload (tx : Transaction) (anomaly_result : AnomalyResult) : ScoreResult :=
  let anomaly_score := anomaly_result.overall_anomaly_score
  let pattern_result := match_fraud_patterns tx
  let pattern_score := pattern_result.combined_pattern_score
  let amount_factor := min (tx.amount / 5000) 1
  let provider_risk := tx.provider_risk_score
  let combined_score :=
    (3/10) * anomaly_score + (4/10) * pattern_score +
    (2/10) * amount_factor * (1/2) + (1/10) * provider_risk
  let fraud_probability := min (max combined_score 0) 1
  { transaction_id := tx.transaction_id
    fraud_probability := round4 fraud_probability
    risk_level := classify_risk fraud_probability
    recommended_action := if should_flagD fraud_probability then "FLAG" else "PASS"
    confidence := round4 (1 - |fraud_probability - 1/2| * 2)
    components := ⟨round4 anomaly_score, round4 pattern_score,
      round4 amount_factor, round4 provider_risk⟩
    anomalies := anomaly_result.anomalies
    matched_patterns := pattern_result.matched_patterns }

/-- Models `score_transaction` (fraud_tools.py lines 269–350).  When no embedding is
passed it serializes and embeds first (both total stubs); its own
`detect_anomalies` call uses no historical stats. -/
def score_transaction (tx : Transaction) (embedding : Option (List ℚ)) :
    Except PyErr ScoreResult :=
  let _emb := match embedding with
    | some e => e
    | none => (compute_embedding (serialize_transaction tx)).1
  match detect_anomalies tx none with
  | .error e => .error e
  | .ok anomaly_result => .ok (scorePayload tx anomaly_result)

/-! ## agents/transaction_analyst.py -/

/-- The cost-matrix snapshot embedded in analysis results. -/
structure CostMatrixSnapshot where
  TP : ℚ
  TN : ℚ
  FP : ℚ
  FN : ℚ
  deriving DecidableEq, Repr

/-- The `cost_sensitive` block of a transaction analysis. -/
structure TxCostSensitive where
  expected_reward : ℚ
  threshold_used : ℚ
  cost_matrix : CostMatrixSnapshot
  deriving DecidableEq, Repr

/-- Result of `TransactionAnalystAgent.analyze`. -/
structure TxAnalysis where
  transaction_id : String
  fraud_probability : ℚ
  risk_level : RiskLevel
  recommended_action : String
  confidence : ℚ
  components : ScoreComponents
  anomalies : List Anomaly
  matched_patterns : List MatchedPattern
  cost_sensitive : TxCostSensitive
  deriving DecidableEq, Repr

/-- Models `TransactionAnalystAgent._calculate_expected_reward`
(transaction_analyst.py lines 188–213). -/
def calculate_expected_reward (cfg : RewardConfig) (p : ℚ) (flagDecision : Bool) : ℚ :=
  if flagDecision then
    p * cfg.true_positive_reward + (1 - p) * cfg.false_positive_penalty
  else
    p * cfg.false_negative_penalty + (1 - p) * cfg.true_negative_reward

/-- Models `TransactionAnalystAgent.analyze` (transaction_analyst.py lines 100–186).
Here `cfg` is the agent field `self.reward_config` (set to `REWARD_CONFIG` at
construction).  Building the returned dictionary evaluates
`self.reward_config.flag_threshold` (line 175), an attribute the dataclass
never defines. -/
def transaction_analyst_analyze (cfg : RewardConfig) (tx : Transaction)
    (include_history : Bool) : Except PyErr TxAnalysis :=
  let historical_stats : Option HistStats :=
    if include_history ∧ tx.beneficiary_id ≠ "" then
      let history := get_transaction_history tx.beneficiary_id 90
      some ⟨history.avg_amount, history.total_amount, history.transaction_count⟩
    else none
  let serialized := serialize_transaction tx
  let embedding := (compute_embedding serialized).1
  match detect_anomalies tx historical_stats with
  | .error e => .error e
  | .ok anomaly_result =>
    let pattern_result := match_fraud_patterns tx
    match score_transaction tx (some embedding) with
    | .error e => .error e
    | .ok score_result =>
      let fraud_probability := score_result.fraud_probability
      let risk_level := classify_risk fraud_probability
      let flag_decision := should_flagD fraud_probability
      let expected_reward := calculate_expected_reward cfg fraud_probability flag_decision
      match cfg.attrFloat "flag_threshold" with
      | .error e => .error e
      | .ok threshold =>
        .ok { transaction_id := tx.transaction_id
              fraud_probability := round4 fraud_probability
              risk_level := risk_level
              recommended_action := if flag_decision then "FLAG" else "PASS"
              confidence := score_result.confidence
              components := score_result.components
              anomalies := anomaly_result.anomalies
              matched_patterns := pattern_result.matched_patterns
              cost_sensitive :=
                { expected_reward := round4 expected_reward
                  threshold_used := threshold
                  cost_matrix := ⟨cfg.true_positive_reward, cfg.true_negative_reward,
                    cfg.false_positive_penalty, cfg.false_negative_penalty⟩ } }

/-- One row of a batch result. -/
structure BatchItem where
  transaction_id : String
  fraud_probability : ℚ
  risk_level : RiskLevel
  recommended_action : String
  deriving DecidableEq, Repr

/-- Result of `TransactionAnalystAgent.batch_analyze`. -/
structure BatchSummary where
  transactions_analyzed : ℕ
  flagged_count : ℕ
  pass_count : ℕ
  average_fraud_probability : ℚ
  results : List BatchItem
  deriving DecidableEq, Repr

/-- The per-transaction loop of `batch_analyze`: each item is analyzed with
`include_history=False`; the first exception aborts the whole batch. -/
def batchItems (cfg : RewardConfig) : List Transaction → Except PyErr (List BatchItem)
  | [] => .ok []
  | tx :: rest =>
    match transaction_analyst_analyze cfg tx false with
    | .error e => .error e
    | .ok r =>
      match batchItems cfg rest with
      | .error e => .error e
      | .ok items =>
        .ok (⟨r.transaction_id, r.fraud_probability, r.risk_level,
          r.recommended_action⟩ :: items)

/-- Models `TransactionAnalystAgent.batch_analyze` (transaction_analyst.py lines
215–256). -/
def batch_analyze (cfg : RewardConfig) (txs : List Transaction) :
    Except PyErr BatchSummary :=
  match batchItems cfg txs with
  | .error e => .error e
  | .ok items =>
    let flagged := (items.filter (fun i => i.recommended_action == "FLAG")).length
    let total := (items.map (·.fraud_probability)).sum
    .ok { transactions_analyzed := items.length
          flagged_count := flagged
          pass_count := items.length - flagged
          average_fraud_probability :=
            if items.length = 0 then 0 else round4 (total / (items.length : ℚ))
          results := items }

/-! ## agents/document_analyst.py (with document_tools.py stubs) -/

/-- A document reference as passed in requests. -/
structure Document where
  docId : String := ""
  uri : String := ""
  deriving DecidableEq, Repr

/-- Models `detect_tampering` (document_tools.py lines 96–173) is a constant stub:
five applicable checks all pass, so the authenticity score is `5/5 = 1`,
no tampering is flagged and no warnings are produced. -/
def detect_tampering_authenticity_score (_uri : String) : ℚ :=
  round4 ((5 : ℚ) / 5)

/-- The fields of the result of `DocumentAnalystAgent.analyze` that later
phases read. -/
structure DocAnalysis where
  documents_analyzed : ℕ
  overall_authenticity_score : ℚ
  recommendation : String
  deriving DecidableEq, Repr

/-- Models `DocumentAnalystAgent.analyze` (document_analyst.py lines 94–196): folds
`min` of the per-document authenticity scores starting from `1.0`.  The
classification / OCR / entity-extraction stubs it also calls are constant and
feed nothing that later phases read, so they are elided. -/
def document_analyst_analyze (docs : List Document) : DocAnalysis :=
  let overall_score := docs.foldl
    (fun acc d => min acc (detect_tampering_authenticity_score d.uri)) 1
  { documents_analyzed := docs.length
    overall_authenticity_score := round4 overall_score
    recommendation :=
      if overall_score < 1/2 then "reject"
      else if overall_score < 7/10 then "review"
      else "accept" }

/-! ## agents/orchestrator.py — analysis-result views

The `_decide_phase` / `_extract_key_findings` methods read a fixed set of
fields from the per-agent result dictionaries collected by `_analyze_phase`;
each view below carries exactly those fields.  An absent dictionary key is an
absent (`none`) view. -/

/-- Fields of `transaction_analysis` read downstream. -/
structure TxView where
  fraud_probability : ℚ
  anomalies : List Anomaly
  deriving DecidableEq, Repr

/-- Fields of `document_analysis` read downstream. -/
structure DocView where
  overall_authenticity_score : ℚ
  deriving DecidableEq, Repr

/-- Fields of `pattern_detection` read downstream. -/
structure PatternView where
  combined_risk_score : ℚ
  patterns_matched : List MatchedPattern
  deriving DecidableEq, Repr

/-- One entry of the `issues_found` list of an identity verification. -/
structure IdentityIssue where
  issueType : String
  severity : String
  details : String
  deriving DecidableEq, Repr

/-- Fields of `identity_verification` read downstream. -/
structure IdentityView where
  verification_score : ℚ
  issues_found : List IdentityIssue
  deriving DecidableEq, Repr

/-- Fields of `network_analysis` read downstream. -/
structure NetworkView where
  network_risk_score : ℚ
  fraud_rings_detected_count : ℤ
  deriving DecidableEq, Repr

/-- The `results` dictionary built by `_analyze_phase`: one optional entry
per sub-agent. -/
structure AnalysisResults where
  transaction_analysis : Option TxView := none
  document_analysis : Option DocView := none
  pattern_detection : Option PatternView := none
  identity_verification : Option IdentityView := none
  network_analysis : Option NetworkView := none
  deriving DecidableEq, Repr

/-! ## agents/orchestrator.py — decide phase (lines 298–367) -/

/-- The component-score dictionary. -/
structure Scores where
  transaction : ℚ
  document : ℚ
  pattern : ℚ
  identity : ℚ
  network : ℚ
  deriving DecidableEq, Repr

/-- The weight dictionary. -/
structure Weights where
  transaction : ℚ
  document : ℚ
  pattern : ℚ
  identity : ℚ
  network : ℚ
  deriving DecidableEq, Repr

/-- The fixed weights of `_decide_phase` (orchestrator.py lines 318–324). -/
def DECIDE_WEIGHTS : Weights :=
  ⟨3/10, 2/10, 25/100, 15/100, 1/10⟩

/-- Score extraction (orchestrator.py lines 309–315): each missing analysis
falls back to the `.get` default (`0`, or `1` for the two inverted scores). -/
def decideScores (r : AnalysisResults) : Scores :=
  { transaction := (r.transaction_analysis.map (·.fraud_probability)).getD 0
    document := 1 - (r.document_analysis.map (·.overall_authenticity_score)).getD 1
    pattern := (r.pattern_detection.map (·.combined_risk_score)).getD 0
    identity := 1 - (r.identity_verification.map (·.verification_score)).getD 1
    network := (r.network_analysis.map (·.network_risk_score)).getD 0 }

/-- The weighted sum of lines 327–330. -/
def weightedScore (s : Scores) (w : Weights) : ℚ :=
  s.transaction * w.transaction + s.document * w.document +
  s.pattern * w.pattern + s.identity * w.identity + s.network * w.network

/-- Models `weighted_score` of `_decide_phase`. -/
def decideWeightedScore (r : AnalysisResults) : ℚ :=
  weightedScore (decideScores r) DECIDE_WEIGHTS

/-- Clamped aggregate of a score vector (orchestrator.py line 333). -/
def aggregateOfScores (s : Scores) : ℚ :=
  min (max (weightedScore s DECIDE_WEIGHTS) 0) 1

/-- Models `fraud_probability = min(max(weighted_score, 0), 1)`. -/
def decideFraudProbability (r : AnalysisResults) : ℚ :=
  aggregateOfScores (decideScores r)

/-- The final action of `_decide_phase` (orchestrator.py lines 334–343) as a
function of the clamped fraud probability. -/
def actionOfProbability (p : ℚ) : String :=
  if classify_risk p = .critical then "BLOCK"
  else if should_flagD p then "FLAG"
  else "PASS"

/-- The action `_decide_phase` computes for its analysis results. -/
def decideAction (r : AnalysisResults) : String :=
  actionOfProbability (decideFraudProbability r)

/-- The five component scores in the order the Python expression lists them. -/
def scoresList (s : Scores) : List ℚ :=
  [s.transaction, s.document, s.pattern, s.identity, s.network]

/-- Models `score_variance` (orchestrator.py line 346): mean squared deviation of
the five component scores from the weighted score; `len(scores)` is always 5. -/
def decideVariance (r : AnalysisResults) : ℚ :=
  ((scoresList (decideScores r)).map
    (fun x => (x - decideWeightedScore r) ^ 2)).sum / 5

/-- Models `confidence = 1 - min(score_variance, 0.25) * 4` (orchestrator.py
line 347). -/
def confidenceOfVariance (v : ℚ) : ℚ :=
  1 - min v (25/100) * 4

/-- The confidence `_decide_phase` computes. -/
def decideConfidence (r : AnalysisResults) : ℚ :=
  confidenceOfVariance (decideVariance r)

/-! ## agents/orchestrator.py — `_extract_key_findings` (lines 369–427) -/

/-- One key finding. -/
structure Finding where
  source : String
  findingType : String
  severity : String
  description : String
  deriving DecidableEq, Repr

/-- Findings from the anomalies of the transaction analysis. -/
def txFindings (r : AnalysisResults) : List Finding :=
  match r.transaction_analysis with
  | none => []
  | some t => t.anomalies.map
      (fun a => ⟨"transaction", a.anomalyType, a.severity, a.description⟩)

/-- Finding from a low document-authenticity score. -/
def docFindings (r : AnalysisResults) : List Finding :=
  if (r.document_analysis.map (·.overall_authenticity_score)).getD 1 < 7/10 then
    [⟨"document", "authenticity_concern", "high",
      "Score d authenticite documentaire faible"⟩]
  else []

/-- Findings from matched fraud patterns. -/
def patternFindings (r : AnalysisResults) : List Finding :=
  ((r.pattern_detection.map (·.patterns_matched)).getD []).map
    (fun p => ⟨"pattern", p.pattern_id,
      if p.match_strength > 7/10 then "high" else "medium", p.pattern_name⟩)

/-- Findings from identity-verification issues. -/
def identityFindings (r : AnalysisResults) : List Finding :=
  ((r.identity_verification.map (·.issues_found)).getD []).map
    (fun i => ⟨"identity", i.issueType, i.severity, i.details⟩)

/-- Finding from detected fraud rings. -/
def networkFindings (r : AnalysisResults) : List Finding :=
  if (r.network_analysis.map (·.fraud_rings_detected_count)).getD 0 > 0 then
    [⟨"network", "fraud_ring", "critical", "Cercle de fraude potentiel detecte"⟩]
  else []

/-- All findings in the order `_extract_key_findings` appends them:
transaction, document, pattern, identity, network. -/
def mergedFindings (r : AnalysisResults) : List Finding :=
  txFindings r ++ docFindings r ++ patternFindings r ++
  identityFindings r ++ networkFindings r

/-- Models `severity_order.get(severity, 3)` with the dictionary
`{critical: 0, high: 1, medium: 2, low: 3}`. -/
def severityRank (s : String) : ℕ :=
  if s = "critical" then 0
  else if s = "high" then 1
  else if s = "medium" then 2
  else 3

/-- The comparison under which `_extract_key_findings` sorts. -/
def findingLE (a b : Finding) : Bool :=
  severityRank a.severity ≤ severityRank b.severity

/-- Models `_extract_key_findings`: the Python `list.sort` is a stable sort by the
severity rank (modelled by the stable `List.mergeSort`), then the list is
truncated to the first 10 entries. -/
def extract_key_findings (r : AnalysisResults) : List Finding :=
  ((mergedFindings r).mergeSort findingLE).take 10

/-! ## agents/orchestrator.py — decide phase record and error -/

/-- The dictionary `_decide_phase` would return. -/
structure DecisionResult where
  action : String
  fraud_probability : ℚ
  risk_level : RiskLevel
  confidence : ℚ
  component_scores : Scores
  weights_used : Weights
  threshold_used : ℚ
  key_findings : List Finding
  cost_matrix_applied : CostMatrixSnapshot
  deriving DecidableEq, Repr

/-- Models `_decide_phase` (orchestrator.py lines 298–367): computes the aggregate,
action, confidence and findings, then builds the result dictionary — whose
`threshold_used` entry evaluates `self.reward_config.flag_threshold`
(line 359). -/
def decide_phase (cfg : RewardConfig) (r : AnalysisResults) :
    Except PyErr DecisionResult :=
  let scores := decideScores r
  let p := decideFraudProbability r
  let risk_level := classify_risk p
  let action := decideAction r
  let confidence := decideConfidence r
  let key_findings := extract_key_findings r
  match cfg.attrFloat "flag_threshold" with
  | .error e => .error e
  | .ok threshold =>
    .ok { action := action
          fraud_probability := round4 p
          risk_level := risk_level
          confidence := round4 confidence
          component_scores := ⟨round4 scores.transaction, round4 scores.document,
            round4 scores.pattern, round4 scores.identity, round4 scores.network⟩
          weights_used := DECIDE_WEIGHTS
          threshold_used := threshold
          key_findings := key_findings
          cost_matrix_applied := ⟨cfg.true_positive_reward, cfg.true_negative_reward,
            cfg.false_positive_penalty, cfg.false_negative_penalty⟩ }

/-! ## agents/orchestrator.py — workflows and `process` -/

/-- Models `WorkflowType` enum (orchestrator.py lines 34–39). -/
inductive WorkflowType where
  | standard
  | quick
  | investigation
  | batch
  deriving DecidableEq, Repr

/-- A beneficiary record; only its id is read by the orchestrator itself. -/
structure Beneficiary where
  beneficiary_id : String := ""
  deriving DecidableEq, Repr

/-- An orchestration request.  `transaction = none` models a request whose
`transaction` key is absent or an empty dictionary (both falsy and both
yielding the default of every field on `.get`). -/
structure Request where
  transaction_id : String := ""
  case_id : Option String := none
  transaction : Option Transaction := none
  documents : List Document := []
  beneficiary : Option Beneficiary := none
  transactions : List Transaction := []
  deriving DecidableEq, Repr

/-- Result of `_intake_phase` (orchestrator.py lines 229–242): presence
booleans and counts; `validation_passed` is the literal `True`. -/
structure IntakeResult where
  transaction_received : Bool
  documents_count : ℕ
  beneficiary_provided : Bool
  validation_passed : Bool
  deriving DecidableEq, Repr

/-- Models `_intake_phase`: no validation is performed and nothing can fail. -/
def intake_phase (transaction : Option Transaction) (documents : List Document)
    (beneficiary : Option Beneficiary) : IntakeResult :=
  { transaction_received := transaction.isSome
    documents_count := documents.length
    beneficiary_provided := beneficiary.isSome
    validation_passed := true }

/-- Result of the explanation generator. -/
structure Explanation where
  explanation_text : String := ""
  recommendations : List String := []
  deriving DecidableEq, Repr

/-- In every workflow the pattern detector, identity verifier, network
analyzer and explanation generator are invoked only after the transaction
analyst.  Their behaviour is therefore irrelevant to every claim proved
below, and the theorems quantify over arbitrary implementations (any function
that returns a result or raises), of which the real agents are instances. -/
structure SubAgents where
  patternDetect : Transaction → Except PyErr PatternView
  identityVerify : Beneficiary → Except PyErr IdentityView
  networkAnalyze : String → Except PyErr NetworkView
  explainGenerate : DecisionResult → AnalysisResults → Except PyErr Explanation
  createReport : String → Except PyErr String

/-- A trivial instantiation of the late sub-agents, used for concrete runs. -/
def dummyAgents : SubAgents :=
  { patternDetect := fun _ => .ok ⟨0, []⟩
    identityVerify := fun _ => .ok ⟨1, []⟩
    networkAnalyze := fun _ => .ok ⟨0, 0⟩
    explainGenerate := fun _ _ => .ok {}
    createReport := fun _ => .ok "" }

/-- Models `_analyze_phase` (orchestrator.py lines 244–296).  The document analyst
runs first (when documents are present), then the transaction analyst, then —
only if the transaction analyst returned — pattern detection, identity
verification (when a beneficiary is present) and network analysis (when a
beneficiary id is known). -/
def analyze_phase (ag : SubAgents) (cfg : RewardConfig) (tx : Transaction)
    (docs : List Document) (ben : Option Beneficiary) :
    Except PyErr AnalysisResults :=
  let docRes : Option DocView :=
    if docs.isEmpty then none
    else some ⟨(document_analyst_analyze docs).overall_authenticity_score⟩
  match transaction_analyst_analyze cfg tx true with
  | .error e => .error e
  | .ok txRes =>
    match ag.patternDetect tx with
    | .error e => .error e
    | .ok patRes =>
      let idStep : Except PyErr (Option IdentityView) :=
        match ben with
        | some b =>
          match ag.identityVerify b with
          | .error e => .error e
          | .ok v => .ok (some v)
        | none => .ok none
      match idStep with
      | .error e => .error e
      | .ok idRes =>
        let beneficiary_id :=
          if ((ben.map (·.beneficiary_id)).getD "") ≠ "" then
            (ben.map (·.beneficiary_id)).getD ""
          else tx.beneficiary_id
        let netStep : Except PyErr (Option NetworkView) :=
          if beneficiary_id ≠ "" then
            match ag.networkAnalyze beneficiary_id with
            | .error e => .error e
            | .ok v => .ok (some v)
          else .ok none
        match netStep with
        | .error e => .error e
        | .ok netRes =>
          .ok { transaction_analysis := some ⟨txRes.fraud_probability, txRes.anomalies⟩
                document_analysis := docRes
                pattern_detection := some patRes
                identity_verification := idRes
                network_analysis := netRes }

/-- The compiled response of `_compile_response` (orchestrator.py lines
453–504); `status` is the literal `"success"`. -/
structure CompiledResponse where
  status : String
  transaction_id : String
  case_id : String
  workflow : String
  decision : String
  fraud_probability : ℚ
  risk_level : String
  confidence : ℚ
  key_findings : List Finding
  explanation : String
  recommendations : List String
  deriving DecidableEq, Repr

/-- Models `_standard_workflow` (orchestrator.py lines 183–227). -/
def standard_workflow (ag : SubAgents) (cfg : RewardConfig) (req : Request)
    (case_id : String) : Except PyErr CompiledResponse :=
  let tx := req.transaction.getD {}
  let _intake := intake_phase req.transaction req.documents req.beneficiary
  match analyze_phase ag cfg tx req.documents req.beneficiary with
  | .error e => .error e
  | .ok analysis =>
    match decide_phase cfg analysis with
    | .error e => .error e
    | .ok decision =>
      match ag.explainGenerate decision analysis with
      | .error e => .error e
      | .ok explanation =>
        .ok { status := "success"
              transaction_id := req.transaction_id
              case_id := case_id
              workflow := "standard"
              decision := decision.action
              fraud_probability := decision.fraud_probability
              risk_level := decision.risk_level.value
              confidence := decision.confidence
              key_findings := decision.key_findings
              explanation := explanation.explanation_text
              recommendations := explanation.recommendations }

/-- Result of `_quick_workflow`. -/
structure QuickResponse where
  status : String
  transaction_id : String
  workflow : String
  decision : String
  fraud_probability : ℚ
  risk_level : String
  requires_full_analysis : Bool
  deriving DecidableEq, Repr

/-- Models `_quick_workflow` (orchestrator.py lines 506–533): transaction scoring
only, with `include_history=False`. -/
def quick_workflow (cfg : RewardConfig) (req : Request) :
    Except PyErr QuickResponse :=
  let tx := req.transaction.getD {}
  match transaction_analyst_analyze cfg tx false with
  | .error e => .error e
  | .ok txRes =>
    let p := txRes.fraud_probability
    let risk := classify_risk p
    .ok { status := "success"
          transaction_id := req.transaction_id
          workflow := "quick"
          decision := if should_flagD p then "FLAG" else "PASS"
          fraud_probability := p
          risk_level := risk.value
          requires_full_analysis :=
            risk = .medium ∨ risk = .high ∨ risk = .critical }

/-- Models `_investigation_workflow` (orchestrator.py lines 535–559): the standard
workflow followed by an investigation report. -/
def investigation_workflow (ag : SubAgents) (cfg : RewardConfig) (req : Request)
    (case_id : String) : Except PyErr (CompiledResponse × String) :=
  match standard_workflow ag cfg req case_id with
  | .error e => .error e
  | .ok result =>
    match ag.createReport case_id with
    | .error e => .error e
    | .ok report => .ok (result, report)

/-- Result of `_batch_workflow`. -/
structure BatchResponse where
  status : String
  workflow : String
  transactions_processed : ℕ
  flagged_count : ℕ
  pass_count : ℕ
  average_fraud_probability : ℚ
  results : List BatchItem
  deriving DecidableEq, Repr

/-- Models `_batch_workflow` (orchestrator.py lines 561–584). -/
def batch_workflow (cfg : RewardConfig) (req : Request) :
    Except PyErr BatchResponse :=
  match batch_analyze cfg req.transactions with
  | .error e => .error e
  | .ok summary =>
    .ok { status := "success"
          workflow := "batch"
          transactions_processed := summary.transactions_analyzed
          flagged_count := summary.flagged_count
          pass_count := summary.pass_count
          average_fraud_probability := summary.average_fraud_probability
          results := summary.results }

/-- The value `FraudOrchestratorAgent.process` returns: one of the four
success dictionaries, or the error dictionary built by the catch-all
exception handler (orchestrator.py lines 174–181). -/
inductive ProcessResponse where
  | okStandard (r : CompiledResponse)
  | okQuick (r : QuickResponse)
  | okInvestigation (r : CompiledResponse) (report : String)
  | okBatch (r : BatchResponse)
  | err (e : PyErr) (transaction_id : String) (case_id : String)
  deriving DecidableEq, Repr

/-- The `"status"` entry of the returned dictionary: every success path sets
`"success"`, the catch-all handler sets `"error"`. -/
def ProcessResponse.statusStr : ProcessResponse → String
  | .err _ _ _ => "error"
  | _ => "success"

/-- The generated `case_id` default; the embedded timestamp is immaterial. -/
def defaultCaseId : String := "CASE-generated"

/-- Models `FraudOrchestratorAgent.process` (orchestrator.py lines 137–181):
dispatches on the workflow type and converts any raised exception into the
error dictionary. -/
def process (ag : SubAgents) (req : Request) (workflow : WorkflowType) :
    ProcessResponse :=
  let case_id := req.case_id.getD defaultCaseId
  let run : Except PyErr ProcessResponse :=
    match workflow with
    | .quick =>
      match quick_workflow REWARD_CONFIG req with
      | .error e => .error e
      | .ok r => .ok (.okQuick r)
    | .investigation =>
      match investigation_workflow ag REWARD_CONFIG req case_id with
      | .error e => .error e
      | .ok r => .ok (.okInvestigation r.1 r.2)
    | .batch =>
      match batch_workflow REWARD_CONFIG req with
      | .error e => .error e
      | .ok r => .ok (.okBatch r)
    | .standard =>
      match standard_workflow ag REWARD_CONFIG req case_id with
      | .error e => .error e
      | .ok r => .ok (.okStandard r)
  match run with
  | .ok r => r
  | .error e => .err e req.transaction_id case_id

/-! ## Neutral filling: a missing adapter versus a zero-risk report -/

/-- Replaces every absent analysis by the present report whose score equals
the `.get` default the decide phase would use: fraud probability `0`,
authenticity `1`, pattern risk `0`, verification `1`, network risk `0`. -/
def fillNeutral (r : AnalysisResults) : AnalysisResults :=
  { transaction_analysis := some (r.transaction_analysis.getD ⟨0, []⟩)
    document_analysis := some (r.document_analysis.getD ⟨1⟩)
    pattern_detection := some (r.pattern_detection.getD ⟨0, []⟩)
    identity_verification := some (r.identity_verification.getD ⟨1, []⟩)
    network_analysis := some (r.network_analysis.getD ⟨0, 0⟩) }

/-! ## Spec-modelled definitions (for refinement comparison only) -/

/-- Modelled from the spec: total default weight of the adapters whose
analysis is present. -/
def presentWeightSum (r : AnalysisResults) : ℚ :=
  (if r.transaction_analysis.isSome then DECIDE_WEIGHTS.transaction else 0) +
  (if r.document_analysis.isSome then DECIDE_WEIGHTS.document else 0) +
  (if r.pattern_detection.isSome then DECIDE_WEIGHTS.pattern else 0) +
  (if r.identity_verification.isSome then DECIDE_WEIGHTS.identity else 0) +
  (if r.network_analysis.isSome then DECIDE_WEIGHTS.network else 0)

/-- Modelled from the spec: "weights of missing/failed adapters are
redistributed proportionally among present ones so weights always sum to 1
over the available set" — i.e. each present weight is divided by the present
weight mass. -/
def specRedistributedAggregate (r : AnalysisResults) : ℚ :=
  ((if r.transaction_analysis.isSome then
      (decideScores r).transaction * DECIDE_WEIGHTS.transaction else 0) +
   (if r.document_analysis.isSome then
      (decideScores r).document * DECIDE_WEIGHTS.document else 0) +
   (if r.pattern_detection.isSome then
      (decideScores r).pattern * DECIDE_WEIGHTS.pattern else 0) +
   (if r.identity_verification.isSome then
      (decideScores r).identity * DECIDE_WEIGHTS.identity else 0) +
   (if r.network_analysis.isSome then
      (decideScores r).network * DECIDE_WEIGHTS.network else 0)) /
  presentWeightSum r

/-- Number of adapters whose analysis is present. -/
def presentCount (r : AnalysisResults) : ℕ :=
  (if r.transaction_analysis.isSome then 1 else 0) +
  (if r.document_analysis.isSome then 1 else 0) +
  (if r.pattern_detection.isSome then 1 else 0) +
  (if r.identity_verification.isSome then 1 else 0) +
  (if r.network_analysis.isSome then 1 else 0)

/-- Modelled from the spec: the confidence variance computed "only over
adapters that actually ran", with the same deviation-from-weighted-score
formula as the code. -/
def specVarianceRan (r : AnalysisResults) : ℚ :=
  ((if r.transaction_analysis.isSome then
      ((decideScores r).transaction - decideWeightedScore r) ^ 2 else 0) +
   (if r.document_analysis.isSome then
      ((decideScores r).document - decideWeightedScore r) ^ 2 else 0) +
   (if r.pattern_detection.isSome then
      ((decideScores r).pattern - decideWeightedScore r) ^ 2 else 0) +
   (if r.identity_verification.isSome then
      ((decideScores r).identity - decideWeightedScore r) ^ 2 else 0) +
   (if r.network_analysis.isSome then
      ((decideScores r).network - decideWeightedScore r) ^ 2 else 0)) /
  (presentCount r : ℚ)

/-- Modelled from the spec: the confidence that would result from excluding
skipped adapters from the variance computation. -/
def specConfidenceRan (r : AnalysisResults) : ℚ :=
  confidenceOfVariance (specVarianceRan r)

/-! ## Concrete inputs used by counterexamples and witnesses -/

/-- A standard-workflow request with a beneficiary id and a positive amount. -/
def c1req : Request :=
  { transaction := some { amount := 100, beneficiary_id := "B1" } }

/-- An empty analysis-results dictionary: zero adapters succeeded. -/
def emptyAnalysis : AnalysisResults := {}

/-- Only the transaction adapter present, reporting fraud probability `1`. -/
def c3results : AnalysisResults :=
  { transaction_analysis := some ⟨1, []⟩ }

/-- A transaction failing the intake validation required by the spec: negative amount
and empty id. -/
def c6tx : Transaction :=
  { transaction_id := "", amount := -5 }

/-- A standard-workflow request carrying the invalid transaction. -/
def c6req : Request :=
  { transaction := some c6tx }

/-- Only the transaction adapter present, reporting fraud probability `1`
(input of the confidence computation). -/
def c7results : AnalysisResults :=
  { transaction_analysis := some ⟨1, []⟩ }

/-- One high-severity transaction anomaly and one high-severity matched
pattern: a severity tie between the transaction and pattern adapters. -/
def c8results : AnalysisResults :=
  { transaction_analysis := some ⟨1/2, [⟨"anomA", "high", "descA"⟩]⟩
    pattern_detection := some ⟨0, [⟨"PAT9", "PatName", "dP", 8/10, 9/10⟩]⟩ }

/-! ## Helper lemmas: where the pipeline raises -/

theorem attrFloat_flag_threshold (cfg : RewardConfig) :
    cfg.attrFloat "flag_threshold" = .error (.attributeError "flag_threshold") := rfl

theorem pyDivQ_zero (a : ℚ) : pyDivQ a 0 = .error .zeroDivisionError := by
  simp [pyDivQ]

theorem pyDivQ_hundred (a : ℚ) : pyDivQ a 100 = .ok (a / 100) := by
  norm_num [pyDivQ]

theorem detect_anomalies_none (tx : Transaction) :
    detect_anomalies tx none = .ok (anomalyPayload tx (decide (tx.amount > 500))) := by
  unfold detect_anomalies
  by_cases h : tx.amount > 100 * 5
  · have h5 : tx.amount > 500 := by linarith
    simp [h, h5, pyDivQ_hundred]
  · have h5 : ¬ tx.amount > 500 := by intro hc; apply h; linarith
    simp [h, h5]

theorem detect_anomalies_zero_avg (tx : Transaction) (s : HistStats)
    (hs : s.avg_amount = 0) :
    detect_anomalies tx (some s) =
      if tx.amount > 0 then .error .zeroDivisionError
      else .ok (anomalyPayload tx false) := by
  unfold detect_anomalies
  dsimp only
  rw [hs]
  by_cases h : tx.amount > 0
  · have h0 : tx.amount > 0 * 5 := by linarith
    simp [h, h0, pyDivQ_zero]
  · have h0 : ¬ tx.amount > 0 * 5 := by intro hc; apply h; linarith
    simp [h, h0]

theorem score_transaction_eq (tx : Transaction) (emb : Option (List ℚ)) :
    score_transaction tx emb =
      .ok (scorePayload tx (anomalyPayload tx (decide (tx.amount > 500)))) := by
  unfold score_transaction
  rw [detect_anomalies_none]

/-- Models `TransactionAnalystAgent.analyze` never returns: when it fetches
historical context (stub average `0`) for a positive amount it dies with a
`ZeroDivisionError` inside `detect_anomalies`; on every other input it dies
with the `AttributeError` on `reward_config.flag_threshold`. -/
theorem transaction_analyst_analyze_error (cfg : RewardConfig) (tx : Transaction)
    (ih : Bool) :
    transaction_analyst_analyze cfg tx ih =
      .error (if ih = true ∧ tx.beneficiary_id ≠ "" ∧ tx.amount > 0
              then .zeroDivisionError
              else .attributeError "flag_threshold") := by
  unfold transaction_analyst_analyze
  dsimp only
  by_cases hb : ih = true ∧ tx.beneficiary_id ≠ ""
  · rw [if_pos hb]
    rw [detect_anomalies_zero_avg tx _ rfl]
    by_cases ha : tx.amount > 0
    · rw [if_pos ha, if_pos ⟨hb.1, hb.2, ha⟩]
    · rw [if_neg ha, if_neg (by rintro ⟨-, -, h⟩; exact ha h)]
      rw [score_transaction_eq, attrFloat_flag_threshold]
  · rw [if_neg hb, detect_anomalies_none, score_transaction_eq,
      attrFloat_flag_threshold,
      if_neg (by rintro ⟨h1, h2, -⟩; exact hb ⟨h1, h2⟩)]

/-- Models `_decide_phase` never returns: building its result dictionary evaluates
`self.reward_config.flag_threshold`, which no `RewardConfig` defines. -/
theorem decide_phase_error (cfg : RewardConfig) (r : AnalysisResults) :
    decide_phase cfg r = .error (.attributeError "flag_threshold") := by
  unfold decide_phase
  rw [attrFloat_flag_threshold]

theorem quick_workflow_error (cfg : RewardConfig) (req : Request) :
    quick_workflow cfg req = .error (.attributeError "flag_threshold") := by
  unfold quick_workflow
  dsimp only
  rw [transaction_analyst_analyze_error]
  simp

theorem standard_workflow_error (ag : SubAgents) (cfg : RewardConfig)
    (req : Request) (cid : String) :
    standard_workflow ag cfg req cid =
      .error (if (req.transaction.getD {}).beneficiary_id ≠ "" ∧
                 (req.transaction.getD {}).amount > 0
              then .zeroDivisionError
              else .attributeError "flag_threshold") := by
  unfold standard_workflow analyze_phase
  dsimp only
  rw [transaction_analyst_analyze_error]
  simp

theorem investigation_workflow_error (ag : SubAgents) (cfg : RewardConfig)
    (req : Request) (cid : String) :
    investigation_workflow ag cfg req cid =
      .error (if (req.transaction.getD {}).beneficiary_id ≠ "" ∧
                 (req.transaction.getD {}).amount > 0
              then .zeroDivisionError
              else .attributeError "flag_threshold") := by
  unfold investigation_workflow
  rw [standard_workflow_error]

theorem batch_analyze_error (cfg : RewardConfig) (txs : List Transaction)
    (h : txs ≠ []) :
    batch_analyze cfg txs = .error (.attributeError "flag_threshold") := by
  cases txs with
  | nil => exact absurd rfl h
  | cons tx rest =>
    unfold batch_analyze batchItems
    rw [transaction_analyst_analyze_error]
    simp

theorem batch_workflow_error (cfg : RewardConfig) (req : Request)
    (h : req.transactions ≠ []) :
    batch_workflow cfg req = .error (.attributeError "flag_threshold") := by
  unfold batch_workflow
  rw [batch_analyze_error cfg req.transactions h]

/-! ## Arithmetic support lemmas -/

theorem round4_nonneg (q : ℚ) (h0 : 0 ≤ q) : 0 ≤ round4 q := by
  unfold round4
  dsimp only
  have hn : (0 : ℤ) ≤ ⌊q * 10000⌋ := Int.floor_nonneg.mpr (by positivity)
  have hr : (0 : ℤ) ≤
      (if q * 10000 - ⌊q * 10000⌋ < 1/2 then ⌊q * 10000⌋
       else if q * 10000 - ⌊q * 10000⌋ > 1/2 then ⌊q * 10000⌋ + 1
       else if ⌊q * 10000⌋ % 2 = 0 then ⌊q * 10000⌋ else ⌊q * 10000⌋ + 1) := by
    split_ifs <;> omega
  have : (0 : ℚ) ≤ ((if q * 10000 - ⌊q * 10000⌋ < 1/2 then ⌊q * 10000⌋
       else if q * 10000 - ⌊q * 10000⌋ > 1/2 then ⌊q * 10000⌋ + 1
       else if ⌊q * 10000⌋ % 2 = 0 then ⌊q * 10000⌋ else ⌊q * 10000⌋ + 1 : ℤ) : ℚ) := by
    exact_mod_cast hr
  positivity

theorem round4_le_one (q : ℚ) (h1 : q ≤ 1) : round4 q ≤ 1 := by
  unfold round4
  dsimp only
  have hx : q * 10000 ≤ 10000 := by linarith
  have hfl : ⌊q * 10000⌋ ≤ 10000 := by
    have h := Int.floor_le_floor hx
    simpa using h
  have hlow : (⌊q * 10000⌋ : ℚ) ≤ q * 10000 := Int.floor_le _
  have hr : (if q * 10000 - ⌊q * 10000⌋ < 1/2 then ⌊q * 10000⌋
       else if q * 10000 - ⌊q * 10000⌋ > 1/2 then ⌊q * 10000⌋ + 1
       else if ⌊q * 10000⌋ % 2 = 0 then ⌊q * 10000⌋ else ⌊q * 10000⌋ + 1) ≤ 10000 := by
    split_ifs with ha hb hc
    · exact hfl
    · have : (⌊q * 10000⌋ : ℚ) < 10000 - 1/2 := by linarith
      have : ⌊q * 10000⌋ < 10000 := by exact_mod_cast (by linarith : (⌊q * 10000⌋ : ℚ) < 10000)
      omega
    · exact hfl
    · have heq : q * 10000 - ⌊q * 10000⌋ = 1/2 := le_antisymm (not_lt.mp hb) (not_lt.mp ha)
      have : (⌊q * 10000⌋ : ℚ) ≤ 10000 - 1/2 := by linarith
      have : ⌊q * 10000⌋ < 10000 := by exact_mod_cast (by linarith : (⌊q * 10000⌋ : ℚ) < 10000)
      omega
  have : ((if q * 10000 - ⌊q * 10000⌋ < 1/2 then ⌊q * 10000⌋
       else if q * 10000 - ⌊q * 10000⌋ > 1/2 then ⌊q * 10000⌋ + 1
       else if ⌊q * 10000⌋ % 2 = 0 then ⌊q * 10000⌋ else ⌊q * 10000⌋ + 1 : ℤ) : ℚ) ≤ 10000 := by
    exact_mod_cast hr
  linarith

theorem clamp01_nonneg (x : ℚ) : 0 ≤ min (max x 0) 1 :=
  le_min (le_max_right x 0) zero_le_one

theorem clamp01_le_one (x : ℚ) : min (max x 0) 1 ≤ 1 :=
  min_le_right _ _

theorem clamp01_mono {x y : ℚ} (h : x ≤ y) :
    min (max x 0) 1 ≤ min (max y 0) 1 :=
  min_le_min (max_le_max h le_rfl) le_rfl

/-! ## Sorting support lemmas -/

theorem findingLE_trans (a b c : Finding) (h1 : findingLE a b = true)
    (h2 : findingLE b c = true) : findingLE a c = true := by
  unfold findingLE at *
  simp only [decide_eq_true_eq] at *
  omega

theorem findingLE_total (a b : Finding) :
    (findingLE a b || findingLE b a) = true := by
  unfold findingLE
  simp only [Bool.or_eq_true, decide_eq_true_eq]
  omega

/-- Stability of the sort in `_extract_key_findings`: within each severity
rank the sorted list keeps exactly the pre-sort subsequence. -/
theorem mergeSort_filter_rank (l : List Finding) (k : ℕ) :
    (l.mergeSort findingLE).filter (fun f => severityRank f.severity == k) =
      l.filter (fun f => severityRank f.severity == k) := by
  set p : Finding → Bool := fun f => severityRank f.severity == k with hp
  have hpw : (l.filter p).Pairwise (fun a b => findingLE a b = true) := by
    apply List.pairwise_of_forall_mem_list
    intro a ha b hb
    have hak := @List.of_mem_filter _ p a l ha
    have hbk := @List.of_mem_filter _ p b l hb
    simp only [hp, beq_iff_eq] at hak hbk
    unfold findingLE
    simp [hak, hbk]
  have h1 : (l.filter p).Sublist (l.mergeSort findingLE) :=
    List.sublist_mergeSort findingLE_trans findingLE_total hpw (List.filter_sublist l)
  have h2 : ((l.filter p).filter p).Sublist ((l.mergeSort findingLE).filter p) :=
    h1.filter p
  have hidem : (l.filter p).filter p = l.filter p :=
    List.filter_eq_self.mpr (fun a ha => @List.of_mem_filter _ p a _ ha)
  rw [hidem] at h2
  have h3 : ((l.mergeSort findingLE).filter p).Perm (l.filter p) :=
    (List.mergeSort_perm l findingLE).filter p
  exact (h2.eq_of_length h3.length_eq.symm).symm

/-! ## Neutral-filling lemmas -/

theorem decideScores_fillNeutral (r : AnalysisResults) :
    decideScores (fillNeutral r) = decideScores r := by
  unfold decideScores fillNeutral
  cases r.transaction_analysis <;> cases r.document_analysis <;>
    cases r.pattern_detection <;> cases r.identity_verification <;>
    cases r.network_analysis <;> simp

theorem decideWeightedScore_fillNeutral (r : AnalysisResults) :
    decideWeightedScore (fillNeutral r) = decideWeightedScore r := by
  unfold decideWeightedScore
  rw [decideScores_fillNeutral]

theorem decideVariance_fillNeutral (r : AnalysisResults) :
    decideVariance (fillNeutral r) = decideVariance r := by
  unfold decideVariance
  rw [decideScores_fillNeutral, decideWeightedScore_fillNeutral]

theorem decideVariance_nonneg (r : AnalysisResults) : 0 ≤ decideVariance r := by
  unfold decideVariance scoresList
  have h : ∀ x w : ℚ, 0 ≤ (x - w) ^ 2 := fun x w => sq_nonneg _
  simp only [List.map_cons, List.map_nil, List.sum_cons, List.sum_nil, add_zero]
  positivity

/-! ## Claim theorems -/

/-- C1 counterexample: a standard-workflow request with a beneficiary id and
a positive amount produces the error result via a `ZeroDivisionError` raised
inside `detect_anomalies` (the stub history average amount is 0) — on this
path `reward_config.flag_threshold` is never evaluated and no
`AttributeError` is raised, refuting the claim that "every such path evaluates
`self.reward_config.flag_threshold`". -/
theorem claim1_counterexample :
    process dummyAgents c1req .standard =
      .err .zeroDivisionError "" defaultCaseId ∧
    PyErr.zeroDivisionError ≠ PyErr.attributeError "flag_threshold" := by
  constructor
  · have hc : (c1req.transaction.getD {}).beneficiary_id ≠ "" ∧
        (c1req.transaction.getD {}).amount > 0 := by
      constructor
      · simp [c1req]
      · norm_num [c1req]
    unfold process
    dsimp only
    rw [standard_workflow_error, if_pos hc]
    rfl
  · decide

/-- C1 (amended): for every request processed with the quick, standard, or
investigation workflow, and every batch request with a non-empty transactions
list, `FraudOrchestratorAgent.process` returns a dict whose `status` is
`"error"` and never a success decision; the exception converted by the
catch-all handler is the `ZeroDivisionError` from `detect_anomalies` when
historical context is fetched (standard/investigation with non-empty
beneficiary id) for a positive amount, and otherwise the `AttributeError`
on the undefined `reward_config.flag_threshold`. -/
theorem claim1_process_always_errors (ag : SubAgents) (req : Request)
    (wf : WorkflowType)
    (h : wf = .quick ∨ wf = .standard ∨ wf = .investigation ∨
      (wf = .batch ∧ req.transactions ≠ [])) :
    (process ag req wf).statusStr = "error" ∧
    ∃ e, process ag req wf =
        .err e req.transaction_id (req.case_id.getD defaultCaseId) ∧
      (e = .zeroDivisionError ∨ e = .attributeError "flag_threshold") := by
  have main : ∃ e, process ag req wf =
      .err e req.transaction_id (req.case_id.getD defaultCaseId) ∧
      (e = .zeroDivisionError ∨ e = .attributeError "flag_threshold") := by
    rcases h with h | h | h | ⟨h, hne⟩ <;> subst h
    · unfold process
      dsimp only
      rw [quick_workflow_error]
      exact ⟨_, rfl, Or.inr rfl⟩
    · unfold process
      dsimp only
      rw [standard_workflow_error]
      refine ⟨_, rfl, ?_⟩
      split_ifs
      · exact Or.inl rfl
      · exact Or.inr rfl
    · unfold process
      dsimp only
      rw [investigation_workflow_error]
      refine ⟨_, rfl, ?_⟩
      split_ifs
      · exact Or.inl rfl
      · exact Or.inr rfl
    · unfold process
      dsimp only
      rw [batch_workflow_error _ _ hne]
      exact ⟨_, rfl, Or.inr rfl⟩
  refine ⟨?_, main⟩
  rcases main with ⟨e, he, -⟩
  rw [he]
  rfl

/-- C1 witness: the quick workflow on the empty request errors. -/
theorem claim1_witness :
    (process dummyAgents {} .quick).statusStr = "error" :=
  (claim1_process_always_errors dummyAgents {} .quick (Or.inl rfl)).1

/-- C2 counterexample: with zero succeeded adapters the decide phase fails
with the `flag_threshold` `AttributeError`, not with an
`InsufficientDataError` (no such error exists anywhere in the code). -/
theorem claim2_counterexample :
    decide_phase REWARD_CONFIG emptyAnalysis =
      .error (.attributeError "flag_threshold") ∧
    decide_phase REWARD_CONFIG emptyAnalysis ≠
      .error .insufficientDataError := by
  refine ⟨decide_phase_error _ _, ?_⟩
  rw [decide_phase_error]
  simp

/-- C2 (amended): if zero adapters succeed (all analysis entries missing),
the decide phase internally computes a PASS action from the default-zero
scores but always fails — with the `AttributeError` on
`reward_config.flag_threshold`, not with an `InsufficientDataError` — so the
run reports an error and no decision record with action PASS is ever
returned. -/
theorem claim2_no_pass_from_empty (cfg : RewardConfig) (r : AnalysisResults)
    (h1 : r.transaction_analysis = none) (h2 : r.document_analysis = none)
    (h3 : r.pattern_detection = none) (h4 : r.identity_verification = none)
    (h5 : r.network_analysis = none) :
    decide_phase cfg r = .error (.attributeError "flag_threshold") ∧
    (∀ d : DecisionResult, decide_phase cfg r ≠ .ok d) ∧
    decideAction r = "PASS" := by
  refine ⟨decide_phase_error cfg r, ?_, ?_⟩
  · intro d hd
    rw [decide_phase_error] at hd
    simp at hd
  · have hs : decideScores r = ⟨0, 0, 0, 0, 0⟩ := by
      unfold decideScores
      rw [h1, h2, h3, h4, h5]
      norm_num
    have hp0 : decideFraudProbability r = 0 := by
      unfold decideFraudProbability aggregateOfScores
      rw [hs]
      norm_num [weightedScore, DECIDE_WEIGHTS]
    have hrl : classify_risk 0 = .low := by
      unfold classify_risk
      norm_num
    have hfl : should_flagD 0 = false := by
      unfold should_flagD should_flag
      simp only [decide_eq_false_iff_not, not_le]
      norm_num
    unfold decideAction actionOfProbability
    rw [hp0, hrl, hfl]
    simp

/-- C2 witness: the amended claim at the empty analysis dictionary. -/
theorem claim2_witness :
    decide_phase REWARD_CONFIG {} = .error (.attributeError "flag_threshold") ∧
    (∀ d : DecisionResult, decide_phase REWARD_CONFIG {} ≠ .ok d) ∧
    decideAction {} = "PASS" :=
  claim2_no_pass_from_empty REWARD_CONFIG {} rfl rfl rfl rfl rfl

/-- C3 counterexample: with only the transaction adapter present reporting
fraud probability `1`, the code aggregates to `0.3` (the transaction weight
is not renormalized), whereas the claimed proportional redistribution over
the present subset would give `1`. -/
theorem claim3_counterexample :
    decideFraudProbability c3results = 3/10 ∧
    specRedistributedAggregate c3results = 1 ∧
    (3/10 : ℚ) ≠ 1 := by
  refine ⟨?_, ?_, by norm_num⟩
  · norm_num [decideFraudProbability, aggregateOfScores, weightedScore,
      decideScores, DECIDE_WEIGHTS, c3results]
  · norm_num [specRedistributedAggregate, presentWeightSum, decideScores,
      DECIDE_WEIGHTS, c3results]

/-- C3 (amended): the aggregated fraud probability is the clamped weighted
sum over all five adapter slots with the fixed default weights
{transaction 0.30, document 0.20, pattern 0.25, identity 0.15,
network 0.10}, which sum to 1 over the full set; the weights of missing or
failed adapters are NOT redistributed: a missing adapter is treated exactly
as a zero-risk report (filling every absent analysis with its neutral-score
report leaves the aggregate unchanged). -/
theorem claim3_no_redistribution :
    (∀ r : AnalysisResults,
      decideFraudProbability r =
        min (max (weightedScore (decideScores r) DECIDE_WEIGHTS) 0) 1) ∧
    (∀ r : AnalysisResults,
      decideFraudProbability r = decideFraudProbability (fillNeutral r)) ∧
    weightedScore ⟨1, 1, 1, 1, 1⟩ DECIDE_WEIGHTS = 1 := by
  refine ⟨fun r => rfl, fun r => ?_, by norm_num [weightedScore, DECIDE_WEIGHTS]⟩
  unfold decideFraudProbability aggregateOfScores
  rw [decideScores_fillNeutral]

/-- C4: the final decision action is BLOCK when the risk level is Critical,
otherwise FLAG when the fraud probability is at least the flag threshold
(whose effective default is 0.3), otherwise PASS; for every probability whose
risk classifies as Critical the action is BLOCK, and `should_flag` is
monotone non-decreasing in the probability. -/
theorem claim4_decision_policy :
    (∀ r : AnalysisResults,
      decideAction r = actionOfProbability (decideFraudProbability r)) ∧
    (∀ p : ℚ, classify_risk p = .critical → actionOfProbability p = "BLOCK") ∧
    (∀ p : ℚ, classify_risk p ≠ .critical →
      actionOfProbability p = (if p ≥ 3/10 then "FLAG" else "PASS")) ∧
    (∀ p : ℚ, should_flagD p = should_flag p (3/10)) ∧
    (∀ p q t : ℚ, p ≤ q → should_flag p t = true → should_flag q t = true) := by
  refine ⟨fun r => rfl, ?_, ?_, fun p => rfl, ?_⟩
  · intro p h
    unfold actionOfProbability
    rw [if_pos h]
  · intro p h
    unfold actionOfProbability should_flagD should_flag
    rw [if_neg h]
    by_cases hp : p ≥ 3/10
    · simp [hp]
    · simp [hp]
  · intro p q t h1 h2
    unfold should_flag at *
    simp only [decide_eq_true_eq] at *
    linarith

/-- C4 witness: a Critical probability is blocked; a flagged probability
stays flagged when raised. -/
theorem claim4_witness :
    actionOfProbability (8/10) = "BLOCK" ∧ should_flag (1/2) (3/10) = true :=
  ⟨claim4_decision_policy.2.1 (8/10) (by unfold classify_risk; norm_num),
   claim4_decision_policy.2.2.2.2 (3/10) (1/2) (3/10) (by norm_num)
     (by unfold should_flag; simp only [decide_eq_true_eq]; norm_num)⟩

/-- C5: `classify_risk` uses the fixed cutpoints: at least 0.7 yields
Critical, [0.4, 0.7) yields High, [0.2, 0.4) yields Medium, and below 0.2
yields Low. -/
theorem claim5_classify_risk_cutpoints (s : ℚ) :
    (s ≥ 7/10 → classify_risk s = .critical) ∧
    (4/10 ≤ s ∧ s < 7/10 → classify_risk s = .high) ∧
    (2/10 ≤ s ∧ s < 4/10 → classify_risk s = .medium) ∧
    (s < 2/10 → classify_risk s = .low) := by
  unfold classify_risk
  refine ⟨fun h => ?_, fun h => ?_, fun h => ?_, fun h => ?_⟩ <;>
    [skip; obtain ⟨ha, hb⟩ := h; obtain ⟨ha, hb⟩ := h; skip] <;>
    split_ifs <;> first | rfl | (exfalso; linarith)

/-- C5 witness: the four buckets at concrete scores. -/
theorem claim5_witness :
    classify_risk (9/10) = .critical ∧ classify_risk (1/2) = .high ∧
    classify_risk (3/10) = .medium ∧ classify_risk (1/10) = .low :=
  ⟨(claim5_classify_risk_cutpoints (9/10)).1 (by norm_num),
   (claim5_classify_risk_cutpoints (1/2)).2.1 ⟨by norm_num, by norm_num⟩,
   (claim5_classify_risk_cutpoints (3/10)).2.2.1 ⟨by norm_num, by norm_num⟩,
   (claim5_classify_risk_cutpoints (1/10)).2.2.2 (by norm_num)⟩

/-- C6 counterexample: on a transaction with negative amount and empty id the
intake phase still reports `validation_passed = True`, and the standard run
proceeds into the analyze phase, erroring there with the `flag_threshold`
`AttributeError` — not with an `InvalidInputError` at intake. -/
theorem claim6_counterexample :
    (intake_phase (some c6tx) [] none).validation_passed = true ∧
    process dummyAgents c6req .standard =
      .err (.attributeError "flag_threshold") "" defaultCaseId ∧
    PyErr.attributeError "flag_threshold" ≠ PyErr.invalidInputError := by
  refine ⟨rfl, ?_, by decide⟩
  have hc : ¬((c6req.transaction.getD {}).beneficiary_id ≠ "" ∧
      (c6req.transaction.getD {}).amount > 0) := by
    rintro ⟨hb, -⟩
    exact hb rfl
  unfold process
  dsimp only
  rw [standard_workflow_error, if_neg hc]
  rfl

/-- C6 (amended): the intake phase performs no validation at all — for every
input (including a negative amount or an empty id) it returns
`validation_passed = True` and raises nothing, and the standard workflow
never fails with an `InvalidInputError`: its only failures are the
`ZeroDivisionError` or the `flag_threshold` `AttributeError` raised in the
analyze phase. -/
theorem claim6_intake_no_validation :
    (∀ t d b, (intake_phase t d b).validation_passed = true) ∧
    (∀ ag cfg req cid e, standard_workflow ag cfg req cid = .error e →
      e = .zeroDivisionError ∨ e = .attributeError "flag_threshold") := by
  refine ⟨fun t d b => rfl, ?_⟩
  intro ag cfg req cid e h
  rw [standard_workflow_error] at h
  simp only [Except.error.injEq] at h
  subst h
  split_ifs
  · exact Or.inl rfl
  · exact Or.inr rfl

/-- C6 witness: the amended claim at concrete inputs. -/
theorem claim6_witness :
    (intake_phase (some c6tx) [] none).validation_passed = true ∧
    (PyErr.attributeError "flag_threshold" = .zeroDivisionError ∨
      PyErr.attributeError "flag_threshold" = .attributeError "flag_threshold") :=
  ⟨claim6_intake_no_validation.1 (some c6tx) [] none,
   claim6_intake_no_validation.2 dummyAgents REWARD_CONFIG {} defaultCaseId
     (.attributeError "flag_threshold")
     (by
        rw [standard_workflow_error]
        simp)⟩

/-- C7 counterexample: with only the transaction adapter present (score 1),
the code computes confidence `0.32` — the variance is averaged over all five
component scores, the four skipped adapters entering at their default `0` —
whereas excluding skipped adapters from the variance computation would give
confidence `0`. -/
theorem claim7_counterexample :
    decideConfidence c7results = 8/25 ∧
    specConfidenceRan c7results = 0 ∧
    (8/25 : ℚ) ≠ 0 := by
  refine ⟨?_, ?_, by norm_num⟩
  · norm_num [decideConfidence, confidenceOfVariance, decideVariance, scoresList,
      decideScores, decideWeightedScore, weightedScore, DECIDE_WEIGHTS, c7results]
  · norm_num [specConfidenceRan, confidenceOfVariance, specVarianceRan,
      presentCount, decideScores, decideWeightedScore, weightedScore,
      DECIDE_WEIGHTS, c7results]

/-- C7 (amended): the confidence computed by the decide phase equals
`1 − min(variance, 0.25) × 4`, lies in [0, 1], and is non-increasing in the
variance; but the variance is computed over all five component scores —
skipped adapters are NOT excluded: they enter at their default score and the
confidence is unchanged by filling every absent analysis with its
neutral-score report. -/
theorem claim7_confidence_properties :
    (∀ r : AnalysisResults,
      decideConfidence r = confidenceOfVariance (decideVariance r)) ∧
    (∀ r : AnalysisResults, 0 ≤ decideConfidence r ∧ decideConfidence r ≤ 1) ∧
    (∀ v w : ℚ, v ≤ w → confidenceOfVariance w ≤ confidenceOfVariance v) ∧
    (∀ r : AnalysisResults, decideConfidence r = decideConfidence (fillNeutral r)) := by
  refine ⟨fun r => rfl, fun r => ⟨?_, ?_⟩, ?_, fun r => ?_⟩
  · have hv := decideVariance_nonneg r
    unfold decideConfidence confidenceOfVariance
    have h1 : min (decideVariance r) (25/100) ≤ 25/100 := min_le_right _ _
    linarith
  · have hv := decideVariance_nonneg r
    unfold decideConfidence confidenceOfVariance
    have h1 : (0 : ℚ) ≤ min (decideVariance r) (25/100) :=
      le_min hv (by norm_num)
    linarith
  · intro v w h
    unfold confidenceOfVariance
    have h1 := min_le_min h (le_refl (25/100 : ℚ))
    linarith
  · unfold decideConfidence
    rw [decideVariance_fillNeutral]

/-- C7 witness: the bounds at the empty analysis, and monotonicity between
variances 0 and 1. -/
theorem claim7_witness :
    (0 ≤ decideConfidence {} ∧ decideConfidence {} ≤ 1) ∧
    confidenceOfVariance 1 ≤ confidenceOfVariance 0 :=
  ⟨claim7_confidence_properties.2.1 {},
   claim7_confidence_properties.2.2.1 0 1 (by norm_num)⟩

/-- C8 counterexample: one high-severity transaction anomaly and one
high-severity matched pattern; `_extract_key_findings` keeps the transaction
finding first (the Python sort is stable and transaction findings are appended
before pattern findings), contradicting the claimed tie-break priority
pattern > identity > network > transaction > document. -/
theorem claim8_counterexample :
    extract_key_findings c8results =
      [⟨"transaction", "anomA", "high", "descA"⟩,
       ⟨"pattern", "PAT9", "high", "PatName"⟩] ∧
    extract_key_findings c8results ≠
      [⟨"pattern", "PAT9", "high", "PatName"⟩,
       ⟨"transaction", "anomA", "high", "descA"⟩] := by
  have hmerged : mergedFindings c8results =
      [⟨"transaction", "anomA", "high", "descA"⟩,
       ⟨"pattern", "PAT9", "high", "PatName"⟩] := by
    unfold mergedFindings txFindings docFindings patternFindings
      identityFindings networkFindings
    norm_num [c8results]
  have h : extract_key_findings c8results =
      [⟨"transaction", "anomA", "high", "descA"⟩,
       ⟨"pattern", "PAT9", "high", "PatName"⟩] := by
    unfold extract_key_findings
    rw [hmerged]
    simp [List.mergeSort, findingLE, severityRank]
  exact ⟨h, by rw [h]; simp⟩

/-- C8 (amended): key findings are merged from all adapters in the extraction
order transaction, document, pattern, identity, network, sorted stably by
severity (Critical before High before Medium before Low) — so ties within a
severity keep the extraction order, not the claimed adapter priority — and
truncated to at most the top 10. -/
theorem claim8_findings_order (r : AnalysisResults) :
    List.Pairwise (fun a b => severityRank a.severity ≤ severityRank b.severity)
      (extract_key_findings r) ∧
    (extract_key_findings r).length ≤ 10 ∧
    extract_key_findings r = ((mergedFindings r).mergeSort findingLE).take 10 ∧
    (∀ k : ℕ, ((mergedFindings r).mergeSort findingLE).filter
        (fun f => severityRank f.severity == k) =
      (mergedFindings r).filter (fun f => severityRank f.severity == k)) := by
  refine ⟨?_, ?_, rfl, fun k => mergeSort_filter_rank _ k⟩
  · have hs := List.sorted_mergeSort findingLE_trans findingLE_total (mergedFindings r)
    have ht : (extract_key_findings r).Sublist
        ((mergedFindings r).mergeSort findingLE) := List.take_sublist _ _
    have hp := List.Pairwise.sublist ht hs
    exact hp.imp (fun h => by simpa [findingLE] using h)
  · unfold extract_key_findings
    rw [List.length_take]
    exact min_le_left _ _

/-- C9: aggregation is monotone — raising any component score (pointwise,
holding the others fixed) never decreases the aggregated,
clamped fraud probability. -/
theorem claim9_aggregation_monotone :
    (∀ r : AnalysisResults,
      decideFraudProbability r = aggregateOfScores (decideScores r)) ∧
    (∀ s t : Scores, s.transaction ≤ t.transaction → s.document ≤ t.document →
      s.pattern ≤ t.pattern → s.identity ≤ t.identity → s.network ≤ t.network →
      aggregateOfScores s ≤ aggregateOfScores t) := by
  refine ⟨fun r => rfl, ?_⟩
  intro s t h1 h2 h3 h4 h5
  unfold aggregateOfScores
  apply clamp01_mono
  unfold weightedScore DECIDE_WEIGHTS
  dsimp only
  have m1 := mul_le_mul_of_nonneg_right h1 (by norm_num : (0:ℚ) ≤ 3/10)
  have m2 := mul_le_mul_of_nonneg_right h2 (by norm_num : (0:ℚ) ≤ 2/10)
  have m3 := mul_le_mul_of_nonneg_right h3 (by norm_num : (0:ℚ) ≤ 25/100)
  have m4 := mul_le_mul_of_nonneg_right h4 (by norm_num : (0:ℚ) ≤ 15/100)
  have m5 := mul_le_mul_of_nonneg_right h5 (by norm_num : (0:ℚ) ≤ 1/10)
  linarith

/-- C9 witness: raising the transaction score from 0 to 1 does not decrease
the aggregate. -/
theorem claim9_witness :
    aggregateOfScores ⟨0, 0, 0, 0, 0⟩ ≤ aggregateOfScores ⟨1, 0, 0, 0, 0⟩ :=
  claim9_aggregation_monotone.2 ⟨0, 0, 0, 0, 0⟩ ⟨1, 0, 0, 0, 0⟩
    (by norm_num) le_rfl le_rfl le_rfl le_rfl

/-- C10: whenever `score_transaction` returns a result, the reported
`fraud_probability` lies in [0, 1]: the combined weighted score is clamped
with `min(max(score, 0), 1)` before being rounded and reported, for every
transaction input. -/
theorem claim10_score_probability_bounds (tx : Transaction)
    (emb : Option (List ℚ)) (r : ScoreResult)
    (h : score_transaction tx emb = .ok r) :
    0 ≤ r.fraud_probability ∧ r.fraud_probability ≤ 1 := by
  rw [score_transaction_eq] at h
  simp only [Except.ok.injEq] at h
  subst h
  unfold scorePayload
  dsimp only
  exact ⟨round4_nonneg _ (clamp01_nonneg _), round4_le_one _ (clamp01_le_one _)⟩

/-- C10 witness: the bound at the all-defaults transaction. -/
theorem claim10_witness :
    0 ≤ (scorePayload {} (anomalyPayload {}
        (decide (({} : Transaction).amount > 500)))).fraud_probability ∧
    (scorePayload {} (anomalyPayload {}
        (decide (({} : Transaction).amount > 500)))).fraud_probability ≤ 1 :=
  claim10_score_probability_bounds {} none _ (score_transaction_eq {} none)

end FraudShield
